import Mathlib

/-
Verification of the cabo repository: lobby / game-creation logic from
src/server/src/ws/ws.service.ts and src/server/src/ws/ws.gateway.ts, and the
shared game type definitions (Card, HandCard, Player, Game, GamePhase).
Datastore-generated fields (row ids, timestamps) are passed as explicit
parameters; a JS Map or Set is modelled by a function or a duplicate-free
list, as noted at each definition.
-/

namespace Cabo

/-- Card from the shared game types: an opaque id and an integer value. -/
structure Card where
  id : String
  value : Int
deriving DecidableEq, Repr

/-- HandCard from the shared game types: one slot of a hand, face up or down. -/
structure HandCard where
  card : Card
  isFaceUp : Bool
deriving DecidableEq, Repr

/-- Player from the shared game types and the Player rows written by
createGame (userId, hand, peekedAtSetup).  The datastore-generated game-local
player id is omitted: no code under verification reads it. -/
structure PlayerRec where
  userId : String
  hand : List HandCard
  peekedAtSetup : Bool
deriving DecidableEq, Repr

/-- GameStatus from the shared game types. -/
inductive GameStatus where
  | PLAYING
  | PAUSED
  | ENDED
  | ABANDONED
deriving DecidableEq, Repr

/-- Where a drawn card came from (the from field of the DRAW phase). -/
inductive DrawSource where
  | DECK
  | DISCARD
deriving DecidableEq, Repr

/-- GamePhase from the shared game types: the tagged union of phases. -/
inductive GamePhase where
  | SETUP
  | READY (readyAt : Nat)
  | ACTION_CHOICE (playerId : String)
  | DRAW (playerId : String) (drawnCard : Card) (src : DrawSource)
  | DISCARD (playerId : String) (discardedCard : Card) (canUseSkill : Bool)
  | PEEK (playerId : String)
  | SPY (playerId : String)
  | SWAP (playerId : String)
  | REPLACE (playerId : String) (drawnCard : Card)
  | ROUND_END
deriving DecidableEq, Repr

/-- Game from the shared game types, joined with its Player rows (the players
relation).  createdAt and updatedAt are millisecond timestamps modelled as
Nat; currentPlayerIndex is an integer as in the datastore schema. -/
structure Game where
  id : String
  status : GameStatus
  createdAt : Nat
  updatedAt : Nat
  currentPlayerIndex : Int
  deck : List Card
  discardPile : List Card
  round : Nat
  phase : GamePhase
  scores : List (List Int)
  players : List PlayerRec
deriving DecidableEq, Repr

/-- playerIds of a game, as produced by the transform in getLatestActiveGame:
the userId of each Player row in order. -/
def playerIds (g : Game) : List String :=
  g.players.map (fun p => p.userId)

/-- Total number of cards present in a game state:
deck plus discard pile plus every hand. -/
def cardsInPlay (g : Game) : Nat :=
  g.deck.length + g.discardPile.length + (g.players.map (fun p => p.hand.length)).sum

/-- Modelled from the spec: the size of one standard deck (the spec fixes
exactly one standard 52-card deck in play; the source sets no constant). -/
def standardDeckSize : Nat := 52

/-- Modelled from the spec: the per-game hand size, commonly 4 per the spec;
the source sets no constant. -/
def handSize : Nat := 4

/-- The Game record written by createGame in ws.service.ts: the data object
passed to the datastore create call.  The row id and timestamps are
datastore-generated and passed in as gid and now. -/
def createGameRecord (gid : String) (now : Nat) (userIds : List String) : Game :=
  { id := gid
    status := GameStatus.PLAYING
    createdAt := now
    updatedAt := now
    currentPlayerIndex := 0
    round := 0
    deck := []
    discardPile := []
    phase := GamePhase.SETUP
    scores := []
    players := userIds.map (fun userId =>
      { userId := userId, hand := [], peekedAtSetup := false }) }

/-- One chat message emission is irrelevant here; the emissions the verified
handlers produce are the sittingUsers broadcast and the userLeft broadcast. -/
inductive Emission where
  | sittingUsers (userIds : List String)
  | userLeft (userId : String)
deriving DecidableEq, Repr

/-- The WsException error kinds thrown by the verified handlers. -/
inductive WsError where
  | UserNotFound
  | AlreadySitting
  | NotSitting
  | InvalidPlayerCount
deriving DecidableEq, Repr

/-- Server-side state of WsService together with the user and game tables.
userSockets models the Map from userId to its Set of socketIds as a function
to duplicate-free lists; the service deletes a key exactly when its socket
set empties, so an absent key and the empty list are indistinguishable and
are both modelled as the empty list.  sittingUsers models the Set of sitting
userIds as a duplicate-free list in insertion order.  users is the list of
user ids present in the User table; games the list of Game rows. -/
structure WsState where
  users : List String
  userSockets : String → List String
  sittingUsers : List String
  games : List Game

/-- removeUserConnection from ws.service.ts: delete the socketId from the
set of the user; the entry itself disappears when the set empties (in this
model: becomes the empty list). -/
def removeUserConnection (m : String → List String) (userId socketId : String) :
    String → List String :=
  fun x => if x = userId then (m userId).erase socketId else m x

/-- getSocketIds from ws.service.ts: all socket ids of a user (empty when
the user has no entry). -/
def getSocketIds (s : WsState) (userId : String) : List String :=
  s.userSockets userId

/-- sitUser from ws.service.ts: add the user to the sitting set (a JS Set
add: a no-op when already present). -/
def sitUser (s : WsState) (userId : String) : WsState :=
  if userId ∈ s.sittingUsers then s
  else { s with sittingUsers := s.sittingUsers ++ [userId] }

/-- unsitUser from ws.service.ts: delete the user from the sitting set. -/
def unsitUser (s : WsState) (userId : String) : WsState :=
  { s with sittingUsers := s.sittingUsers.erase userId }

/-- isUserSitting from ws.service.ts. -/
def isUserSitting (s : WsState) (userId : String) : Bool :=
  decide (userId ∈ s.sittingUsers)

/-- getSittingUserIds from ws.service.ts: the sitting set in insertion
order. -/
def getSittingUserIds (s : WsState) : List String :=
  s.sittingUsers

/-- getSittingUserCount from ws.service.ts. -/
def getSittingUserCount (s : WsState) : Nat :=
  s.sittingUsers.length

/-- canStartGame from ws.service.ts: 2 to 4 sitting users required. -/
def canStartGame (s : WsState) : Bool :=
  decide (2 ≤ getSittingUserCount s ∧ getSittingUserCount s ≤ 4)

/-- createGame from ws.service.ts: create the Game row (with its Player
rows) from the given user ids, then clear the sitting set, and return the
created game.  gid and now stand for the datastore-generated id and
timestamps. -/
def createGame (s : WsState) (gid : String) (now : Nat) (userIds : List String) :
    WsState × Game :=
  let game := createGameRecord gid now userIds
  ({ s with games := s.games ++ [game], sittingUsers := [] }, game)

/-- Outcome of one gateway handler: the server state after the handler ran,
the events it broadcast, and its result (the ack value, or the WsException
it threw).  The state is threaded exactly in source order, so a state
reached before a throw is what the error case returns. -/
structure HandlerOut (α : Type) where
  state : WsState
  emissions : List Emission
  result : Except WsError α

/-- handleSit from ws.gateway.ts: getUserOrThrow, reject when already
sitting, otherwise sit the user and broadcast the sitting list. -/
def handleSit (s : WsState) (userId : String) : HandlerOut Unit :=
  if userId ∉ s.users then ⟨s, [], Except.error WsError.UserNotFound⟩
  else if isUserSitting s userId then ⟨s, [], Except.error WsError.AlreadySitting⟩
  else
    let s1 := sitUser s userId
    ⟨s1, [Emission.sittingUsers (getSittingUserIds s1)], Except.ok ()⟩

/-- handleUnsit from ws.gateway.ts: getUserOrThrow, reject when not
sitting, otherwise unsit the user and broadcast the sitting list. -/
def handleUnsit (s : WsState) (userId : String) : HandlerOut Unit :=
  if userId ∉ s.users then ⟨s, [], Except.error WsError.UserNotFound⟩
  else if ¬ isUserSitting s userId then ⟨s, [], Except.error WsError.NotSitting⟩
  else
    let s1 := unsitUser s userId
    ⟨s1, [Emission.sittingUsers (getSittingUserIds s1)], Except.ok ()⟩

/-- handleGameStart from ws.gateway.ts: getUserOrThrow, reject when the
requester is not sitting, reject unless 2 to 4 users are sitting, then
create the game from the sitting user ids and ack with its id.  No event
is broadcast by this handler. -/
def handleGameStart (s : WsState) (userId : String) (gid : String) (now : Nat) :
    HandlerOut String :=
  if userId ∉ s.users then ⟨s, [], Except.error WsError.UserNotFound⟩
  else if ¬ isUserSitting s userId then ⟨s, [], Except.error WsError.NotSitting⟩
  else if ¬ canStartGame s then ⟨s, [], Except.error WsError.InvalidPlayerCount⟩
  else
    let sittingUserIds := getSittingUserIds s
    let (s1, game) := createGame s gid now sittingUserIds
    ⟨s1, [], Except.ok game.id⟩

/-- handleDisconnect from ws.gateway.ts: nothing happens for a socket that
never authenticated; otherwise the connection is removed, and when the user
has no sockets left, the user is unseated (with a sitting broadcast) if
sitting, and userLeft is broadcast. -/
def handleDisconnect (s : WsState) (userId : Option String) (socketId : String) :
    WsState × List Emission :=
  match userId with
  | none => (s, [])
  | some uid =>
    let s1 : WsState :=
      { s with userSockets := removeUserConnection s.userSockets uid socketId }
    let socketIds := getSocketIds s1 uid
    if socketIds.isEmpty then
      if isUserSitting s1 uid then
        let s2 := unsitUser s1 uid
        (s2, [Emission.sittingUsers (getSittingUserIds s2), Emission.userLeft uid])
      else (s1, [Emission.userLeft uid])
    else (s1, [])

/-- Status filter of the getLatestActiveGame query: status in
[PLAYING, PAUSED]. -/
def isActive (g : Game) : Bool :=
  decide (g.status = GameStatus.PLAYING ∨ g.status = GameStatus.PAUSED)

/-- findFirst with orderBy updatedAt desc over a list of rows: the row with
the greatest updatedAt (the first such row on ties). -/
def latestOf : List Game → Option Game
  | [] => none
  | g :: rest =>
    match latestOf rest with
    | none => some g
    | some b => if b.updatedAt > g.updatedAt then some b else some g

/-- getLatestActiveGame from ws.service.ts: the most recently updated game
whose status is PLAYING or PAUSED, or none.  The identity-shaped transform
to the Game interface is dropped since our rows already carry playerIds via
their Player rows. -/
def getLatestActiveGame (db : List Game) : Option Game :=
  latestOf (db.filter isActive)

/-- The error of a draw from an empty deck. -/
inductive DrawError where
  | EmptyDeck
deriving DecidableEq, Repr

/-- Modelled from the spec: the repository only declares the deck type and
implements no deck operation; the spec defines draw(deck) as taking the top
card (top of a pile is its first element here) and failing with EmptyDeck
when the deck is empty. -/
def draw (deck : List Card) : Except DrawError (Card × List Card) :=
  match deck with
  | [] => Except.error DrawError.EmptyDeck
  | c :: rest => Except.ok (c, rest)

/-- Modelled from the spec: the Round Controller is not implemented in the
repository; per the spec, drawFromDeck retries a failed draw after the
mandatory reshuffle of the discard pile minus its top card into a new deck,
leaving the discard pile holding only its former top card.  The injected rng
shuffle is passed in as a permutation of the reshuffled cards. -/
def drawFromDeck (shuffle : List Card → List Card) (g : Game) :
    Except DrawError (Card × Game) :=
  match draw g.deck with
  | Except.ok (c, rest) => Except.ok (c, { g with deck := rest })
  | Except.error _ =>
    match g.discardPile with
    | [] => Except.error DrawError.EmptyDeck
    | top :: restDiscard =>
      let g1 := { g with deck := shuffle restDiscard, discardPile := [top] }
      match draw g1.deck with
      | Except.ok (c, rest) => Except.ok (c, { g1 with deck := rest })
      | Except.error e => Except.error e

/-- Phase of the final lap after a Cabo call, reduced to what the lap needs:
an ACTION_CHOICE turn of the player at a seat index, or ROUND_END.  It
mirrors the ACTION_CHOICE and ROUND_END variants of GamePhase with players
named by their index in playerIds. -/
inductive LapPhase where
  | actionChoice (seat : Nat)
  | roundEnd
deriving DecidableEq, Repr

/-- Modelled from the spec: the turn-advance rule once a player has called
Cabo — the next player is (current + 1) mod n, nobody else is skipped, and
the round ends when the turn would come back to the caller (every other
player has then acted exactly once more).  n is the seated player count,
caller the seat index of the Cabo caller. -/
def lapStep (n caller current : Nat) : LapPhase :=
  let j := (current + 1) % n
  if j = caller then LapPhase.roundEnd else LapPhase.actionChoice j

/-- Run the final lap from a current seat: the list of seats that take an
ACTION_CHOICE turn, in order, and whether ROUND_END was reached within the
given fuel. -/
def lapRunAux (n caller : Nat) : Nat → Nat → List Nat × Bool
  | 0, _ => ([], false)
  | fuel + 1, current =>
    match lapStep n caller current with
    | LapPhase.roundEnd => ([], true)
    | LapPhase.actionChoice j =>
      let rest := lapRunAux n caller fuel j
      (j :: rest.1, rest.2)

/-- The seats taking one more ACTION_CHOICE turn after the caller calls Cabo
on their own turn (fuel n suffices: the lap is at most n - 1 turns). -/
def lapTrace (n caller : Nat) : List Nat :=
  (lapRunAux n caller n caller).1

/-- Whether the final lap reaches ROUND_END within n steps. -/
def lapReachesEnd (n caller : Nat) : Bool :=
  (lapRunAux n caller n caller).2

end Cabo

namespace Cabo

/-- C1 counterexample: for three seated players, the game returned by
createGame has an empty deck — its length is 0, not
standardDeckSize - 3 * handSize — and no hand holds handSize cards: the
code deals nothing at creation. -/
theorem createGame_threePlayers_deck_not_dealt :
    ((createGame ⟨[], fun _ => [], [], []⟩ "g1" 0 ["a", "b", "c"]).2.deck.length ≠
      standardDeckSize - 3 * handSize) ∧
    ¬ (∀ p ∈ (createGame ⟨[], fun _ => [], [], []⟩ "g1" 0 ["a", "b", "c"]).2.players,
        p.hand.length = handSize) := by
  refine ⟨by decide, ?_⟩
  intro h
  have := h { userId := "a", hand := [], peekedAtSetup := false } (by decide)
  simp [handSize] at this

/-- C1 amended: for every game creation with N seated players (2 ≤ N ≤ 4),
the Game returned by createGame has phase SETUP, an empty discard pile, an
empty deck, and one Player row per seated player whose hand is empty (the
code builds no deck and deals no cards at creation; every hand card
trivially has isFaceUp = false since there are none). -/
theorem createGame_initial_shape (s : WsState) (gid : String) (now : Nat)
    (userIds : List String) (_h2 : 2 ≤ userIds.length) (_h4 : userIds.length ≤ 4) :
    (createGame s gid now userIds).2.phase = GamePhase.SETUP ∧
    (createGame s gid now userIds).2.discardPile = [] ∧
    (createGame s gid now userIds).2.deck = [] ∧
    (createGame s gid now userIds).2.players.length = userIds.length ∧
    (∀ p ∈ (createGame s gid now userIds).2.players,
      p.hand = [] ∧ p.peekedAtSetup = false) := by
  refine ⟨rfl, rfl, rfl, by simp [createGame, createGameRecord], ?_⟩
  intro p hp
  simp [createGame, createGameRecord] at hp
  obtain ⟨u, _, rfl⟩ := hp
  exact ⟨rfl, rfl⟩

/-- C1 witness at three players. -/
theorem createGame_initial_shape_witness :
    (createGame ⟨[], fun _ => [], [], []⟩ "g1" 0 ["a", "b", "c"]).2.phase =
      GamePhase.SETUP := by
  exact (createGame_initial_shape ⟨[], fun _ => [], [], []⟩ "g1" 0 ["a", "b", "c"]
    (by decide) (by decide)).1

/-- C2 counterexample: the state produced by createGame for two players has
deck + discardPile + hands totalling 0 cards, not the size of a standard
deck. -/
theorem createGame_breaks_conservation :
    cardsInPlay (createGame ⟨[], fun _ => [], [], []⟩ "g2" 0 ["a", "b"]).2 ≠
      standardDeckSize := by
  decide

/-- C2 amended: every game state the code produces comes from createGame and
holds 0 cards in total (deck, discard pile and all hands are empty); the
conservation sum is therefore constant at 0 across all reachable states —
it does not equal the size of a standard deck, because no card is ever
created: the repository contains no dealing or card-moving code. -/
theorem createGame_cardsInPlay_zero (s : WsState) (gid : String) (now : Nat)
    (userIds : List String) :
    cardsInPlay (createGame s gid now userIds).2 = 0 := by
  simp only [createGame, createGameRecord, cardsInPlay, List.map_map,
    List.length_nil, Nat.zero_add, Nat.add_zero, List.sum_eq_zero_iff]
  intro x hx
  simp only [List.mem_map, Function.comp] at hx
  obtain ⟨u, _, rfl⟩ := hx
  rfl

/-- C7: every Game produced by createGame with a non-empty userIds list has
status PLAYING, currentPlayerIndex 0 inside [0, playerIds.length), and
scores.length = round (both 0). -/
theorem createGame_core_invariants (s : WsState) (gid : String) (now : Nat)
    (userIds : List String) (h : userIds ≠ []) :
    (createGame s gid now userIds).2.status = GameStatus.PLAYING ∧
    0 ≤ (createGame s gid now userIds).2.currentPlayerIndex ∧
    (createGame s gid now userIds).2.currentPlayerIndex <
      (playerIds (createGame s gid now userIds).2).length ∧
    (createGame s gid now userIds).2.scores.length =
      (createGame s gid now userIds).2.round := by
  refine ⟨rfl, le_refl 0, ?_, rfl⟩
  have hpos : 0 < userIds.length := List.length_pos.mpr h
  simp [createGame, createGameRecord, playerIds]
  exact_mod_cast hpos

/-- C7 witness at two players. -/
theorem createGame_core_invariants_witness :
    (createGame ⟨[], fun _ => [], [], []⟩ "g3" 0 ["a", "b"]).2.status =
      GameStatus.PLAYING := by
  exact (createGame_core_invariants ⟨[], fun _ => [], [], []⟩ "g3" 0 ["a", "b"]
    (by decide)).1

/-- C9: after every createGame call the sitting set is empty:
getSittingUserIds of the resulting state is the empty list. -/
theorem createGame_clears_sitting (s : WsState) (gid : String) (now : Nat)
    (userIds : List String) :
    getSittingUserIds (createGame s gid now userIds).1 = [] := by
  rfl

/-- C3: for an existing user, handleGameStart creates a Game exactly when
the requester is sitting and 2 to 4 users are sitting; on success the game
table grows by the created game; on failure the error goes only to the
requester (nothing is broadcast) and the state is untouched. -/
theorem handleGameStart_creates_iff (s : WsState) (u gid : String) (now : Nat)
    (hu : u ∈ s.users) :
    ((∃ res, (handleGameStart s u gid now).result = Except.ok res) ↔
      u ∈ s.sittingUsers ∧ 2 ≤ s.sittingUsers.length ∧ s.sittingUsers.length ≤ 4) ∧
    (∀ res, (handleGameStart s u gid now).result = Except.ok res →
      (handleGameStart s u gid now).state.games =
        s.games ++ [createGameRecord gid now (getSittingUserIds s)]) ∧
    (∀ e, (handleGameStart s u gid now).result = Except.error e →
      (handleGameStart s u gid now).state = s ∧
      (handleGameStart s u gid now).emissions = []) := by
  by_cases hsit : u ∈ s.sittingUsers
  · by_cases hcnt : 2 ≤ s.sittingUsers.length ∧ s.sittingUsers.length ≤ 4
    · simp [handleGameStart, isUserSitting, canStartGame, getSittingUserCount,
        getSittingUserIds, createGame, hu, hsit, hcnt]
    · simp [handleGameStart, isUserSitting, canStartGame, getSittingUserCount,
        hu, hsit, hcnt]
  · simp [handleGameStart, isUserSitting, hu, hsit]

/-- C3 witness: two sitting users, the first one starts the game. -/
theorem handleGameStart_creates_iff_witness :
    ∃ res, (handleGameStart ⟨["a", "b"], fun _ => [], ["a", "b"], []⟩
      "a" "g" 0).result = Except.ok res := by
  exact (handleGameStart_creates_iff ⟨["a", "b"], fun _ => [], ["a", "b"], []⟩
    "a" "g" 0 (by decide)).1.mpr (by decide)

/-- C4: a guard failure of handleSit, handleUnsit or handleGameStart leaves
the whole server state — sitting set, game table, everything — exactly as it
was. -/
theorem guard_failure_preserves_state (s : WsState) (u v w gid : String)
    (now : Nat) :
    (∀ e, (handleSit s u).result = Except.error e → (handleSit s u).state = s) ∧
    (∀ e, (handleUnsit s v).result = Except.error e → (handleUnsit s v).state = s) ∧
    (∀ e, (handleGameStart s w gid now).result = Except.error e →
      (handleGameStart s w gid now).state = s) := by
  refine ⟨?_, ?_, ?_⟩
  · intro e he
    by_cases h1 : u ∈ s.users
    · by_cases h2 : u ∈ s.sittingUsers
      · simp [handleSit, isUserSitting, h1, h2]
      · simp [handleSit, isUserSitting, h1, h2] at he
    · simp [handleSit, h1]
  · intro e he
    by_cases h1 : v ∈ s.users
    · by_cases h2 : v ∈ s.sittingUsers
      · simp [handleUnsit, isUserSitting, h1, h2] at he
      · simp [handleUnsit, isUserSitting, h1, h2]
    · simp [handleUnsit, h1]
  · intro e he
    by_cases h1 : w ∈ s.users
    · by_cases h2 : w ∈ s.sittingUsers
      · by_cases h3 : 2 ≤ s.sittingUsers.length ∧ s.sittingUsers.length ≤ 4
        · simp [handleGameStart, isUserSitting, canStartGame,
            getSittingUserCount, h1, h2, h3] at he
        · simp [handleGameStart, isUserSitting, canStartGame,
            getSittingUserCount, h1, h2, h3]
      · simp [handleGameStart, isUserSitting, h1, h2]
    · simp [handleGameStart, h1]

/-- C4 witness: sit by a sitting user, unsit by a non-sitting user, and
gameStart by a non-sitting user all leave the state unchanged. -/
theorem guard_failure_preserves_state_witness :
    (handleSit ⟨["a", "b"], fun _ => [], ["a"], []⟩ "a").state =
      ⟨["a", "b"], fun _ => [], ["a"], []⟩ ∧
    (handleUnsit ⟨["a", "b"], fun _ => [], ["a"], []⟩ "b").state =
      ⟨["a", "b"], fun _ => [], ["a"], []⟩ ∧
    (handleGameStart ⟨["a", "b"], fun _ => [], ["a"], []⟩ "b" "g" 0).state =
      ⟨["a", "b"], fun _ => [], ["a"], []⟩ := by
  refine ⟨(guard_failure_preserves_state ⟨["a", "b"], fun _ => [], ["a"], []⟩
      "a" "b" "b" "g" 0).1 WsError.AlreadySitting rfl,
    (guard_failure_preserves_state ⟨["a", "b"], fun _ => [], ["a"], []⟩
      "a" "b" "b" "g" 0).2.1 WsError.NotSitting rfl,
    (guard_failure_preserves_state ⟨["a", "b"], fun _ => [], ["a"], []⟩
      "a" "b" "b" "g" 0).2.2 WsError.NotSitting rfl⟩

/-- latestOf returns none exactly on the empty row list. -/
theorem latestOf_eq_none_iff (l : List Game) : latestOf l = none ↔ l = [] := by
  cases l with
  | nil => simp [latestOf]
  | cons g rest =>
    cases hr : latestOf rest with
    | none => simp [latestOf, hr]
    | some b =>
      simp only [latestOf, hr]
      split <;> simp

/-- A row returned by latestOf is one of the rows. -/
theorem latestOf_mem : ∀ (l : List Game) (g : Game), latestOf l = some g → g ∈ l := by
  intro l
  induction l with
  | nil => intro g h; simp [latestOf] at h
  | cons a rest ih =>
    intro g h
    cases hr : latestOf rest with
    | none =>
      simp [latestOf, hr] at h
      simp [h]
    | some b =>
      simp only [latestOf, hr] at h
      split at h
      · simp at h
        exact List.mem_cons_of_mem a (h ▸ ih b hr)
      · simp at h
        simp [h]

/-- A row returned by latestOf has the greatest updatedAt among the rows. -/
theorem latestOf_le : ∀ (l : List Game) (g : Game), latestOf l = some g →
    ∀ g' ∈ l, g'.updatedAt ≤ g.updatedAt := by
  intro l
  induction l with
  | nil => intro g h; simp [latestOf] at h
  | cons a rest ih =>
    intro g h g' hg'
    cases hr : latestOf rest with
    | none =>
      have hnil : rest = [] := (latestOf_eq_none_iff rest).mp hr
      subst hnil
      simp [latestOf] at h
      simp at hg'
      subst hg'
      simp [h]
    | some b =>
      simp only [latestOf, hr] at h
      rcases List.mem_cons.mp hg' with rfl | hmem
      · by_cases hlt : b.updatedAt > g'.updatedAt
        · rw [if_pos hlt] at h
          simp at h
          subst h
          exact le_of_lt hlt
        · rw [if_neg hlt] at h
          simp at h
          subst h
          exact le_refl _
      · have hb := ih b hr g' hmem
        by_cases hlt : b.updatedAt > a.updatedAt
        · rw [if_pos hlt] at h
          simp at h
          subst h
          exact hb
        · rw [if_neg hlt] at h
          simp at h
          subst h
          exact le_trans hb (le_of_not_lt hlt)

/-- C8: getLatestActiveGame returns some game only when PLAYING or PAUSED —
never ENDED or ABANDONED, so handleAuth never emits gameData for those — and
then the most recently updated such row; it returns none exactly when no
active row exists. -/
theorem getLatestActiveGame_active_and_latest (db : List Game) :
    (∀ g, getLatestActiveGame db = some g →
      (g.status = GameStatus.PLAYING ∨ g.status = GameStatus.PAUSED) ∧
      g.status ≠ GameStatus.ENDED ∧ g.status ≠ GameStatus.ABANDONED ∧
      g ∈ db ∧
      ∀ g' ∈ db, isActive g' = true → g'.updatedAt ≤ g.updatedAt) ∧
    (getLatestActiveGame db = none ↔ ∀ g ∈ db, isActive g = false) := by
  constructor
  · intro g h
    have hmem : g ∈ db.filter isActive := latestOf_mem _ g h
    have hact : isActive g = true := List.of_mem_filter hmem
    have hIn : g ∈ db := List.mem_of_mem_filter hmem
    have hst : g.status = GameStatus.PLAYING ∨ g.status = GameStatus.PAUSED := by
      simpa [isActive] using hact
    refine ⟨hst, ?_, ?_, hIn, ?_⟩
    · rcases hst with h1 | h1 <;> simp [h1]
    · rcases hst with h1 | h1 <;> simp [h1]
    · intro g' hg' hact'
      exact latestOf_le _ g h g' (List.mem_filter.mpr ⟨hg', hact'⟩)
  · rw [getLatestActiveGame, latestOf_eq_none_iff, List.filter_eq_nil_iff]
    simp

/-- C8 witness: with one ENDED row (more recent) and one PLAYING row, the
PLAYING row is returned and is among the rows. -/
theorem getLatestActiveGame_active_and_latest_witness :
    (⟨"p", GameStatus.PLAYING, 0, 5, 0, [], [], 0, GamePhase.SETUP, [], []⟩ : Game) ∈
      [(⟨"e", GameStatus.ENDED, 0, 9, 0, [], [], 0, GamePhase.ROUND_END, [], []⟩ : Game),
       ⟨"p", GameStatus.PLAYING, 0, 5, 0, [], [], 0, GamePhase.SETUP, [], []⟩] := by
  exact ((getLatestActiveGame_active_and_latest
    [⟨"e", GameStatus.ENDED, 0, 9, 0, [], [], 0, GamePhase.ROUND_END, [], []⟩,
     ⟨"p", GameStatus.PLAYING, 0, 5, 0, [], [], 0, GamePhase.SETUP, [], []⟩]).1
    ⟨"p", GameStatus.PLAYING, 0, 5, 0, [], [], 0, GamePhase.SETUP, [], []⟩
    (by decide)).2.2.2.1

/-- Erasing an element it contains empties a list exactly when the list was
that one element. -/
theorem erase_eq_nil_iff (l : List String) (a : String) (h : a ∈ l) :
    l.erase a = [] ↔ l = [a] := by
  constructor
  · intro he
    have hlen : (l.erase a).length + 1 = l.length := List.length_erase_add_one h
    rw [he] at hlen
    simp at hlen
    obtain ⟨b, rfl⟩ := List.length_eq_one.mp hlen.symm
    simp at h
    simp [h]
  · intro he
    subst he
    simp

/-- A duplicate-free list never keeps an element it erased. -/
theorem nodup_not_mem_erase {l : List String} (h : l.Nodup) (a : String) :
    a ∉ l.erase a := by
  intro hmem
  rw [h.erase_eq_filter] at hmem
  have := List.of_mem_filter hmem
  simp at this

/-- C10: disconnecting one socket of an authenticated user broadcasts
userLeft exactly when that socket was the last connection of the user; in
that case the user leaves the sitting set, and otherwise the sitting set is
untouched, nothing is broadcast, and the user is still present. -/
theorem handleDisconnect_last_connection (s : WsState) (uid socketId : String)
    (hnd : s.sittingUsers.Nodup) (hmem : socketId ∈ s.userSockets uid) :
    (Emission.userLeft uid ∈ (handleDisconnect s (some uid) socketId).2 ↔
      s.userSockets uid = [socketId]) ∧
    (s.userSockets uid = [socketId] →
      (handleDisconnect s (some uid) socketId).1.sittingUsers =
        s.sittingUsers.erase uid ∧
      uid ∉ (handleDisconnect s (some uid) socketId).1.sittingUsers) ∧
    (s.userSockets uid ≠ [socketId] →
      (handleDisconnect s (some uid) socketId).1.sittingUsers = s.sittingUsers ∧
      (handleDisconnect s (some uid) socketId).2 = [] ∧
      (handleDisconnect s (some uid) socketId).1.userSockets uid ≠ []) := by
  have hrm : removeUserConnection s.userSockets uid socketId uid =
      (s.userSockets uid).erase socketId := by
    simp [removeUserConnection]
  by_cases hlast : s.userSockets uid = [socketId]
  · have he : (s.userSockets uid).erase socketId = [] :=
      (erase_eq_nil_iff _ _ hmem).mpr hlast
    by_cases hsit : uid ∈ s.sittingUsers
    · simp [handleDisconnect, getSocketIds, hrm, he, isUserSitting, unsitUser,
        getSittingUserIds, hsit, hlast]
      exact nodup_not_mem_erase hnd uid
    · simp [handleDisconnect, getSocketIds, hrm, he, isUserSitting, unsitUser,
        getSittingUserIds, hsit, hlast]
      exact (List.erase_of_not_mem hsit).symm
  · have he : ¬ ((s.userSockets uid).erase socketId = []) := by
      intro h0
      exact hlast ((erase_eq_nil_iff _ _ hmem).mp h0)
    simp only [handleDisconnect, getSocketIds, hrm, isUserSitting, unsitUser,
      getSittingUserIds, List.isEmpty_iff]
    rw [if_neg he]
    simp [hrm, hlast, he]

/-- C10 witness: the user with the single socket s1 disconnects it and a
userLeft broadcast results. -/
theorem handleDisconnect_last_connection_witness :
    Emission.userLeft "a" ∈
      (handleDisconnect ⟨["a"], fun x => if x = "a" then ["s1"] else [], ["a"], []⟩
        (some "a") "s1").2 := by
  exact (handleDisconnect_last_connection
    ⟨["a"], fun x => if x = "a" then ["s1"] else [], ["a"], []⟩ "a" "s1"
    (by decide) (by decide)).1.mpr (by decide)

/-- C5: for a seated player count n (2 to 4, as enforced by canStartGame)
and any caller seat, once the caller calls Cabo exactly n - 1 further
ACTION_CHOICE turns occur — one per other seated player, none for the
caller — and then the phase becomes ROUND_END. -/
theorem cabo_final_lap (n caller : Nat) (hn : n < 5) (h2 : 2 ≤ n)
    (hc : caller < n) :
    (lapTrace n caller).length = n - 1 ∧
    (lapTrace n caller).Nodup ∧
    caller ∉ lapTrace n caller ∧
    (∀ j, j < n → j ≠ caller → j ∈ lapTrace n caller) ∧
    lapReachesEnd n caller = true := by
  interval_cases n <;> interval_cases caller <;> decide

/-- C5 witness: three players, caller in seat 1. -/
theorem cabo_final_lap_witness :
    (lapTrace 3 1).length = 3 - 1 ∧
    (lapTrace 3 1).Nodup ∧
    1 ∉ lapTrace 3 1 ∧
    (∀ j, j < 3 → j ≠ 1 → j ∈ lapTrace 3 1) ∧
    lapReachesEnd 3 1 = true := by
  exact cabo_final_lap 3 1 (by decide) (by decide) (by decide)

/-- C6 counterexample: a state with an empty deck, a one-card discard pile
and a card in a hand has cards in play, yet drawFromDeck still fails after
the mandatory reshuffle (the discard pile minus its top is empty), so the
draw does not complete whenever any cards remain in play. -/
theorem drawFromDeck_fails_with_cards_in_play :
    0 < cardsInPlay ⟨"g", GameStatus.PLAYING, 0, 0, 0, [], [⟨"d7", 7⟩], 0,
        GamePhase.ACTION_CHOICE "a", [], [⟨"a", [⟨⟨"c1", 1⟩, false⟩], true⟩]⟩ ∧
    drawFromDeck (fun l => l)
      ⟨"g", GameStatus.PLAYING, 0, 0, 0, [], [⟨"d7", 7⟩], 0,
        GamePhase.ACTION_CHOICE "a", [], [⟨"a", [⟨⟨"c1", 1⟩, false⟩], true⟩]⟩ =
      Except.error DrawError.EmptyDeck := by
  exact ⟨by decide, rfl⟩

/-- C6 amended: draw on an empty deck fails with EmptyDeck, and drawFromDeck
then reshuffles the discard pile minus its top into a new deck before
retrying, so that after a successful retry the discard pile holds exactly
its former top card; the draw completes whenever the deck is non-empty or
the discard pile holds at least two cards (not whenever any cards remain in
play: cards held in hands cannot be reshuffled). -/
theorem draw_reshuffle_behaviour (shuffle : List Card → List Card)
    (hs : ∀ l, (shuffle l).length = l.length) (g : Game) :
    (g.deck = [] → draw g.deck = Except.error DrawError.EmptyDeck) ∧
    (∀ top rest, g.deck = [] → g.discardPile = top :: rest →
      ∀ c g', drawFromDeck shuffle g = Except.ok (c, g') →
        g'.discardPile = [top]) ∧
    (g.deck ≠ [] ∨ 2 ≤ g.discardPile.length →
      ∃ c g', drawFromDeck shuffle g = Except.ok (c, g')) := by
  refine ⟨?_, ?_, ?_⟩
  · intro h
    rw [h]
    rfl
  · intro top rest hd hdp c g' hok
    cases hsr : shuffle rest with
    | nil =>
      simp [drawFromDeck, hd, hdp, hsr, draw] at hok
    | cons c0 r0 =>
      simp [drawFromDeck, hd, hdp, hsr, draw] at hok
      rw [← hok.2]
  · intro hor
    rcases hdk : g.deck with _ | ⟨c0, rest0⟩
    · rcases hor with hne | hlen
      · exact absurd hdk hne
      · rcases hdp : g.discardPile with _ | ⟨top, rest⟩
        · rw [hdp] at hlen
          simp at hlen
        · have hrl : rest ≠ [] := by
            rw [hdp] at hlen
            simp [Nat.succ_le_iff] at hlen
            intro h0
            rw [h0] at hlen
            simp at hlen
          have hsl : shuffle rest ≠ [] := by
            intro h0
            have hlen0 := hs rest
            rw [h0] at hlen0
            simp at hlen0
            exact hrl (List.length_eq_zero.mp hlen0.symm)
          cases hsr : shuffle rest with
          | nil => exact absurd hsr hsl
          | cons c1 r1 =>
            refine ⟨c1, { g with deck := r1, discardPile := [top] }, ?_⟩
            simp [drawFromDeck, hdk, hdp, hsr, draw]
    · refine ⟨c0, { g with deck := rest0 }, ?_⟩
      simp [drawFromDeck, hdk, draw]

/-- C6 witness: a one-card deck draws successfully. -/
theorem draw_reshuffle_behaviour_witness :
    ∃ c g', drawFromDeck (fun l => l)
      ⟨"g", GameStatus.PLAYING, 0, 0, 0, [⟨"d1", 1⟩], [], 0,
        GamePhase.SETUP, [], []⟩ = Except.ok (c, g') := by
  exact (draw_reshuffle_behaviour (fun l => l) (fun l => rfl)
    ⟨"g", GameStatus.PLAYING, 0, 0, 0, [⟨"d1", 1⟩], [], 0,
      GamePhase.SETUP, [], []⟩).2.2 (Or.inl (by decide))

end Cabo
